import Mathlib

/-!
Verification of the gitworth service (`src/app.py`).

The development shallowly embeds the program:

* `calculate_gitworth` mirrors the pure scoring function (`app.py` lines
  15-37).  Python numbers are modelled by `ℤ` (the extracted JSON integers)
  and `ℚ` (the float arithmetic of the normalisation step); `round(x, 2)`
  is modelled by round-half-to-even at two decimal places, Python 3's
  behaviour.
* `get_profile_body` mirrors the body of the route handler (`app.py` lines
  41-67): the two sequential `requests.get` calls (a transport failure is a
  `ReqResult.exn`), the status-code branching, the response shaping and the
  status codes.  The value also records which upstream GET calls were
  issued.
* `app_route` and `memoize` mirror the two decorators on `get_profile`.
  Flask's `App.route` registers the decorated function in the URL map and
  returns it unchanged; `flask_caching.Cache.memoize(300)` wraps the
  function it receives with a 300-second cache keyed on the argument.  In
  `app.py` the `@cache.memoize(300)` line sits *above* `@app.route(...)`,
  so the route decorator is applied first: the URL map receives the
  un-memoized body, and only the module-level name `get_profile` is bound
  to the memoized wrapper, which Flask's dispatcher never calls.
-/

namespace Gitworth

/-- Round-half-to-even of a rational to an integer: the rounding used by
Python 3's builtin `round`. -/
def round_half_even (q : ℚ) : ℤ :=
  let f : ℤ := Int.floor q
  if q - (f : ℚ) < 1 / 2 then f
  else if (1 : ℚ) / 2 < q - (f : ℚ) then f + 1
  else if f % 2 = 0 then f else f + 1

/-- Python's `round(x, 2)`: round to two decimal places, ties to even. -/
def round2 (q : ℚ) : ℚ := (round_half_even (q * 100) : ℚ) / 100

/-- The profile JSON object returned by the upstream profile endpoint, with
the four keys `app.py` reads.  `none` models an absent key (`dict.get`
returns the default for it). -/
structure ProfileData where
  login : Option String
  name : Option String
  followers : Option ℤ
  public_repos : Option ℤ
deriving DecidableEq

/-- One element of the repository-list JSON array, with the two keys
`app.py` reads; `none` models an absent key. -/
structure RepoData where
  stargazers_count : Option ℤ
  forks_count : Option ℤ
deriving DecidableEq

/-- `calculate_gitworth` from `app.py` lines 15-37, translated clause by
clause: extraction with default 0, the weighted raw score, normalisation by
`MAX_POSSIBLE_SCORE = 10000` capped at 100, and `round(_, 2)`. -/
def calculate_gitworth (profile_data : ProfileData) (repos_data : List RepoData) : ℚ :=
  let followers := profile_data.followers.getD 0
  let public_repos := profile_data.public_repos.getD 0
  let stars := (repos_data.map (fun repo => repo.stargazers_count.getD 0)).sum
  let forks := (repos_data.map (fun repo => repo.forks_count.getD 0)).sum
  let raw_score := followers * 3 + public_repos * 2 + stars * 4 + forks * 1
  let normalized_score := min 100 ((raw_score : ℚ) / 10000 * 100)
  round2 normalized_score

/-- The followers count the scoring function extracts: `followers` key,
defaulting to 0 when absent. -/
def followersOf (pd : ProfileData) : ℤ := pd.followers.getD 0

/-- The public-repository count the scoring function extracts. -/
def publicReposOf (pd : ProfileData) : ℤ := pd.public_repos.getD 0

/-- Total stars: sum of `stargazers_count` over the repository list,
each defaulting to 0 when absent. -/
def starsOf (rd : List RepoData) : ℤ :=
  (rd.map (fun repo => repo.stargazers_count.getD 0)).sum

/-- Total forks: sum of `forks_count` over the repository list. -/
def forksOf (rd : List RepoData) : ℤ :=
  (rd.map (fun repo => repo.forks_count.getD 0)).sum

/-- The raw weighted score `followers*3 + public_repos*2 + stars*4 + forks*1`. -/
def rawOf (pd : ProfileData) (rd : List RepoData) : ℤ :=
  followersOf pd * 3 + publicReposOf pd * 2 + starsOf rd * 4 + forksOf rd * 1

/-- Sample profile for the spec's worked scoring scenario. -/
def octocatProfile : ProfileData :=
  ⟨some "octocat", some "Octo", some 100, some 20⟩

/-- Sample repository list for the spec's worked scoring scenario. -/
def octocatRepos : List RepoData :=
  [⟨some 50, some 10⟩, ⟨some 25, some 5⟩]

/-- Sample profile whose raw score saturates the 10000 cap. -/
def starProfile : ProfileData := ⟨some "star", none, some 4000, some 0⟩

/-- Sample profile for the monotonicity witness. -/
def monoProfile : ProfileData := ⟨some "a", none, some 10, some 1⟩

/-- Sample repository lists for the monotonicity witness: one extra fork. -/
def monoReposSmall : List RepoData := [⟨some 3, some 1⟩]

/-- The same repository list with the fork count increased. -/
def monoReposLarge : List RepoData := [⟨some 3, some 2⟩]

/-- Sample profile with a negative followers count. -/
def negProfile : ProfileData := ⟨some "n", none, some (-100), some 0⟩

/-- Result of one `requests.get` call: either a response or a raised
`requests.exceptions.RequestException`, carrying `str(e)`. -/
inductive ReqResult (α : Type) where
  | ok : α → ReqResult α
  | exn : String → ReqResult α
deriving DecidableEq

/-- Response of the upstream profile endpoint: status code and parsed JSON
body (`profile_response.json()`). -/
structure ProfileResponse where
  status_code : ℤ
  json : ProfileData
deriving DecidableEq

/-- Response of the upstream repository-list endpoint. -/
structure ReposResponse where
  status_code : ℤ
  json : List RepoData
deriving DecidableEq

/-- The upstream environment seen by one handler invocation: what the two
GET calls for this username would produce. -/
structure Upstream where
  profile : ReqResult ProfileResponse
  repos : ReqResult ReposResponse
deriving DecidableEq

/-- An upstream GET call issued by the handler, for call-count
instrumentation. -/
inductive UpstreamCall where
  | profileGet : String → UpstreamCall
  | reposGet : String → UpstreamCall
deriving DecidableEq

/-- The JSON object of the success branch (`app.py` lines 53-61).  Each
field holds exactly the expression the code puts there; in particular
`followers` and `public_repos` come from `dict.get` *without* a default, so
they are `Option ℤ` — `none` renders as JSON `null`. -/
structure SuccessBody where
  username : Option String
  name : Option String
  followers : Option ℤ
  public_repos : Option ℤ
  stars_received : ℤ
  forks_received : ℤ
  gitworth_score : ℚ
deriving DecidableEq

/-- A response body: the success object or an `{"error": msg}` object. -/
inductive Body where
  | success : SuccessBody → Body
  | error : String → Body
deriving DecidableEq

/-- A handler response: body plus HTTP status (200 is Flask's default for a
bare `jsonify(...)` return). -/
structure HttpResponse where
  body : Body
  status : ℤ
deriving DecidableEq

/-- The body of `get_profile` (`app.py` lines 41-67): issue the profile GET
then the repos GET (a transport exception aborts to the 500 branch), then
branch on status codes exactly as the `if`/`elif`/`else` chain does.  The
second component records the upstream GET calls issued. -/
def get_profile_body (username : String) (up : Upstream) :
    HttpResponse × List UpstreamCall :=
  match up.profile with
  | ReqResult.exn e => (⟨Body.error e, 500⟩, [UpstreamCall.profileGet username])
  | ReqResult.ok profile_response =>
    match up.repos with
    | ReqResult.exn e =>
        (⟨Body.error e, 500⟩,
          [UpstreamCall.profileGet username, UpstreamCall.reposGet username])
    | ReqResult.ok repos_response =>
      if profile_response.status_code = 200 ∧ repos_response.status_code = 200 then
        let profile_data := profile_response.json
        let repos_data := repos_response.json
        let gitworth_score := calculate_gitworth profile_data repos_data
        (⟨Body.success
            { username := profile_data.login
              name := profile_data.name
              followers := profile_data.followers
              public_repos := profile_data.public_repos
              stars_received := (repos_data.map (fun repo => repo.stargazers_count.getD 0)).sum
              forks_received := (repos_data.map (fun repo => repo.forks_count.getD 0)).sum
              gitworth_score := gitworth_score }, 200⟩,
          [UpstreamCall.profileGet username, UpstreamCall.reposGet username])
      else if profile_response.status_code = 403 then
        (⟨Body.error "GitHub API rate limit exceeded. Try again later.", 403⟩,
          [UpstreamCall.profileGet username, UpstreamCall.reposGet username])
      else
        (⟨Body.error "User not found", 404⟩,
          [UpstreamCall.profileGet username, UpstreamCall.reposGet username])

/-- Projection used to observe the `followers` field of a response body:
`some f` when the body is the success object (with `f` the value of its
`followers` field), `none` when it is an error object. -/
def success_followers : Body → Option (Option ℤ)
  | Body.success sb => some sb.followers
  | Body.error _ => none

/-- Type of a view function as Flask dispatches it: username in, response
out (with the upstream calls it issued). -/
def HandlerFn : Type := String → Upstream → HttpResponse × List UpstreamCall

/-- Flask's `App.route(rule)` decorator: it registers the function it
receives in the application's URL map and returns that same function
unchanged.  `view` is what lands in the URL map, `returned` is the value of
the decorator expression. -/
structure RoutedApp where
  view : HandlerFn
  returned : HandlerFn

/-- Applying `@app.route("/profile/<username>")` to a function. -/
def app_route (f : HandlerFn) : RoutedApp := ⟨f, f⟩

/-- The cache of `flask_caching` with `CACHE_TYPE = "simple"`: per key, the
stored payload and the time it was stored. -/
def CacheState : Type := String → Option (HttpResponse × ℕ)

/-- `cache.memoize(ttl)` applied to a view function: on a lookup the entry
is served while `now < stored + ttl` and no upstream call is made;
otherwise the wrapped function runs and its result is stored at the current
time. -/
def memoize (ttl : ℕ) (f : HandlerFn) (t : ℕ) (c : CacheState) (u : String)
    (up : Upstream) : HttpResponse × CacheState × List UpstreamCall :=
  match c u with
  | some (resp, t0) =>
    if t < t0 + ttl then (resp, c, [])
    else
      let r := f u up
      (r.1, fun v => if v = u then some (r.1, t) else c v, r.2)
  | none =>
    let r := f u up
    (r.1, fun v => if v = u then some (r.1, t) else c v, r.2)

/-- The decorators of `app.py` lines 39-40 in Python's bottom-up order:
`app.route` is applied first (registering the raw body in the URL map and
returning it), then `cache.memoize(300)` wraps the returned function. -/
def gitworth_app : RoutedApp := app_route get_profile_body

/-- The module-level name `get_profile` after both decorators: the memoized
wrapper around what `app.route` returned.  Nothing in the dispatch path
ever calls it. -/
def get_profile : ℕ → CacheState → String → Upstream →
    HttpResponse × CacheState × List UpstreamCall :=
  memoize 300 gitworth_app.returned

/-- Flask dispatch of one HTTP request at time `t`: the framework invokes
the function registered in the URL map.  The cache state is threaded
through untouched because the registered view is the un-memoized body. -/
def dispatch (t : ℕ) (c : CacheState) (u : String) (up : Upstream) :
    HttpResponse × CacheState × List UpstreamCall :=
  ((gitworth_app.view u up).1, c, (gitworth_app.view u up).2)

/-- The empty cache at server start. -/
def emptyCache : CacheState := fun _ => none

/-- Concrete healthy upstream for the cache trace: both calls return 200. -/
def aliceUpstream : Upstream :=
  ⟨ReqResult.ok ⟨200, ⟨some "alice", some "Alice", some 10, some 2⟩⟩,
    ReqResult.ok ⟨200, [⟨some 5, some 1⟩]⟩⟩

/-- Concrete upstream whose profile payload lacks the `followers` key. -/
def sparseUpstream : Upstream :=
  ⟨ReqResult.ok ⟨200, ⟨some "alice", some "Alice", none, some 2⟩⟩,
    ReqResult.ok ⟨200, []⟩⟩

/-- Concrete profile payload used by several witnesses. -/
def plainProfile : ProfileData := ⟨some "bob", some "Bob", some 1, some 1⟩

lemma round_half_even_intCast (n : ℤ) : round_half_even (n : ℚ) = n := by
  simp [round_half_even]

lemma round2_int_div (n : ℤ) : round2 ((n : ℚ) / 100) = (n : ℚ) / 100 := by
  unfold round2
  rw [div_mul_cancel₀ _ (by norm_num : (100 : ℚ) ≠ 0), round_half_even_intCast]

lemma min_norm (m : ℤ) :
    min (100 : ℚ) ((m : ℚ) / 10000 * 100) = ((min 10000 m : ℤ) : ℚ) / 100 := by
  have h : (m : ℚ) / 10000 * 100 = (m : ℚ) / 100 := by ring
  rw [h, Int.cast_min]
  have h10 : ((10000 : ℤ) : ℚ) = 10000 := by norm_num
  rw [h10]
  rcases le_total (10000 : ℚ) ((m : ℤ) : ℚ) with hm | hm
  · rw [min_eq_left hm, min_eq_left (by linarith)]
    norm_num
  · rw [min_eq_right hm, min_eq_right (by linarith)]

/-- Closed form of the scoring function: on integer inputs the rounding is
the identity, so the score is exactly `min 10000 raw / 100`. -/
lemma calculate_gitworth_closed (pd : ProfileData) (rd : List RepoData) :
    calculate_gitworth pd rd = ((min 10000 (rawOf pd rd) : ℤ) : ℚ) / 100 := by
  show round2 (min 100 ((rawOf pd rd : ℚ) / 10000 * 100)) = _
  rw [min_norm, round2_int_div]

/-- Claim C2: for non-negative integer inputs (followers, public repos,
total stars, total forks — the latter two being the default-0 sums over the
repository list), `calculate_gitworth` returns
`min(100, round((3f + 2p + 4s + t)/100, 2))`. -/
theorem calculate_gitworth_spec (pd : ProfileData) (rd : List RepoData)
    (hf : 0 ≤ followersOf pd) (hp : 0 ≤ publicReposOf pd)
    (hs : 0 ≤ starsOf rd) (ht : 0 ≤ forksOf rd) :
    calculate_gitworth pd rd =
      min 100 (round2
        (((3 * followersOf pd + 2 * publicReposOf pd + 4 * starsOf rd + forksOf rd : ℤ) : ℚ)
          / 100)) := by
  have hr : (3 * followersOf pd + 2 * publicReposOf pd + 4 * starsOf rd + forksOf rd : ℤ)
      = rawOf pd rd := by
    unfold rawOf; ring
  have h2 : ((rawOf pd rd : ℤ) : ℚ) / 100 = (rawOf pd rd : ℚ) / 10000 * 100 := by ring
  rw [hr, round2_int_div, h2, min_norm, calculate_gitworth_closed]

/-- Witness for C2: the spec's worked scenario — 100 followers, 20 public
repositories, repositories with 50+25 stars and 10+5 forks. -/
theorem calculate_gitworth_spec_witness :
    calculate_gitworth octocatProfile octocatRepos =
      min 100 (round2
        (((3 * followersOf octocatProfile + 2 * publicReposOf octocatProfile
            + 4 * starsOf octocatRepos + forksOf octocatRepos : ℤ) : ℚ) / 100)) :=
  calculate_gitworth_spec _ _ (by decide) (by decide) (by decide) (by decide)

/-- Claim C7: whenever the raw weighted score reaches 10000, the score
saturates at exactly 100. -/
theorem score_saturates_at_100 (pd : ProfileData) (rd : List RepoData)
    (hf : 0 ≤ followersOf pd) (hp : 0 ≤ publicReposOf pd)
    (hs : 0 ≤ starsOf rd) (ht : 0 ≤ forksOf rd)
    (h : 10000 ≤ rawOf pd rd) :
    calculate_gitworth pd rd = 100 := by
  rw [calculate_gitworth_closed, min_eq_left h]
  norm_num

/-- Witness for C7: 4000 followers alone give raw score 12000 ≥ 10000. -/
theorem score_saturates_at_100_witness :
    calculate_gitworth starProfile [] = 100 :=
  score_saturates_at_100 _ _ (by decide) (by decide) (by decide) (by decide) (by decide)

/-- Claim C8: the score is monotonically non-decreasing in each of the four
extracted inputs; stated jointly (componentwise `≤` on followers, public
repos, total stars, total forks implies `≤` on scores), which contains each
single-coordinate increase as the special case where the other three
components are equal. -/
theorem score_monotone (pd pd' : ProfileData) (rd rd' : List RepoData)
    (hf0 : 0 ≤ followersOf pd) (hp0 : 0 ≤ publicReposOf pd)
    (hs0 : 0 ≤ starsOf rd) (ht0 : 0 ≤ forksOf rd)
    (hf : followersOf pd ≤ followersOf pd') (hp : publicReposOf pd ≤ publicReposOf pd')
    (hs : starsOf rd ≤ starsOf rd') (ht : forksOf rd ≤ forksOf rd') :
    calculate_gitworth pd rd ≤ calculate_gitworth pd' rd' := by
  rw [calculate_gitworth_closed, calculate_gitworth_closed]
  have hraw : rawOf pd rd ≤ rawOf pd' rd' := by
    unfold rawOf; linarith
  have h2 : min 10000 (rawOf pd rd) ≤ min 10000 (rawOf pd' rd') :=
    min_le_min le_rfl hraw
  have h3 : ((min 10000 (rawOf pd rd) : ℤ) : ℚ) ≤ ((min 10000 (rawOf pd' rd') : ℤ) : ℚ) :=
    Int.cast_le.mpr h2
  linarith

/-- Witness for C8: adding a fork to the single repository does not
decrease the score. -/
theorem score_monotone_witness :
    calculate_gitworth monoProfile monoReposSmall ≤
      calculate_gitworth monoProfile monoReposLarge :=
  score_monotone _ _ _ _ (by decide) (by decide) (by decide) (by decide)
    (by decide) (by decide) (by decide) (by decide)

/-- Claim C9: a negative raw score is propagated unmodified — the result is
`round(raw/100, 2)` (which on integers is `raw/100` itself) and is below 0;
no clamping at 0 happens. -/
theorem negative_raw_unclamped (pd : ProfileData) (rd : List RepoData)
    (h : rawOf pd rd < 0) :
    calculate_gitworth pd rd = round2 ((rawOf pd rd : ℚ) / 100) ∧
      calculate_gitworth pd rd < 0 := by
  have hmin : min (10000 : ℤ) (rawOf pd rd) = rawOf pd rd :=
    min_eq_right (by linarith)
  have hcast : ((rawOf pd rd : ℤ) : ℚ) < 0 := by exact_mod_cast h
  rw [calculate_gitworth_closed, hmin, round2_int_div]
  exact ⟨rfl, by linarith⟩

/-- Witness for C9: followers = -100 yields score -3, below zero. -/
theorem negative_raw_unclamped_witness :
    calculate_gitworth negProfile [] = round2 ((rawOf negProfile [] : ℚ) / 100) ∧
      calculate_gitworth negProfile [] < 0 :=
  negative_raw_unclamped _ _ (by decide)

/-- When both upstream calls return responses, the handler body is exactly
the `if`/`elif`/`else` chain of `app.py` lines 46-65. -/
lemma get_profile_body_ok_ok (username : String) (pr : ProfileResponse)
    (rr : ReposResponse) :
    get_profile_body username ⟨ReqResult.ok pr, ReqResult.ok rr⟩ =
      (if pr.status_code = 200 ∧ rr.status_code = 200 then
        (⟨Body.success
            { username := pr.json.login
              name := pr.json.name
              followers := pr.json.followers
              public_repos := pr.json.public_repos
              stars_received := (rr.json.map (fun repo => repo.stargazers_count.getD 0)).sum
              forks_received := (rr.json.map (fun repo => repo.forks_count.getD 0)).sum
              gitworth_score := calculate_gitworth pr.json rr.json }, 200⟩,
          [UpstreamCall.profileGet username, UpstreamCall.reposGet username])
      else if pr.status_code = 403 then
        (⟨Body.error "GitHub API rate limit exceeded. Try again later.", 403⟩,
          [UpstreamCall.profileGet username, UpstreamCall.reposGet username])
      else
        (⟨Body.error "User not found", 404⟩,
          [UpstreamCall.profileGet username, UpstreamCall.reposGet username])) := rfl

/-- Claim C3: whenever the profile fetch returns status 403, the handler
returns the rate-limit error body with status 403, whatever the
repositories response looks like. -/
theorem profile_403_rate_limited (username : String) (pr : ProfileResponse)
    (rr : ReposResponse) (h : pr.status_code = 403) :
    (get_profile_body username ⟨ReqResult.ok pr, ReqResult.ok rr⟩).1 =
      ⟨Body.error "GitHub API rate limit exceeded. Try again later.", 403⟩ := by
  have hne : ¬(pr.status_code = 200 ∧ rr.status_code = 200) := by
    intro hc
    rw [h] at hc
    exact absurd hc.1 (by norm_num)
  rw [get_profile_body_ok_ok, if_neg hne, if_pos h]

/-- Witness for C3: profile 403 with a healthy repositories response. -/
theorem profile_403_rate_limited_witness :
    (get_profile_body "bob" ⟨ReqResult.ok ⟨403, plainProfile⟩, ReqResult.ok ⟨200, []⟩⟩).1 =
      ⟨Body.error "GitHub API rate limit exceeded. Try again later.", 403⟩ :=
  profile_403_rate_limited "bob" ⟨403, plainProfile⟩ ⟨200, []⟩ (by decide)

/-- Claim C4: when the profile fetch returns 200 and the repositories fetch
returns any non-200 status (403 included), the handler returns the
"User not found" body with status 404 — a rate-limited repositories call
alone is not mapped to 403. -/
theorem repos_failure_maps_to_404 (username : String) (pr : ProfileResponse)
    (rr : ReposResponse) (hp : pr.status_code = 200) (hr : rr.status_code ≠ 200) :
    (get_profile_body username ⟨ReqResult.ok pr, ReqResult.ok rr⟩).1 =
      ⟨Body.error "User not found", 404⟩ := by
  have hne : ¬(pr.status_code = 200 ∧ rr.status_code = 200) := fun hc => hr hc.2
  have h403 : ¬(pr.status_code = 403) := by rw [hp]; norm_num
  rw [get_profile_body_ok_ok, if_neg hne, if_neg h403]

/-- Witness for C4: profile 200 and a rate-limited (403) repositories call
still produce the 404 "User not found" response. -/
theorem repos_failure_maps_to_404_witness :
    (get_profile_body "bob" ⟨ReqResult.ok ⟨200, plainProfile⟩, ReqResult.ok ⟨403, []⟩⟩).1 =
      ⟨Body.error "User not found", 404⟩ :=
  repos_failure_maps_to_404 "bob" ⟨200, plainProfile⟩ ⟨403, []⟩ (by decide) (by decide)

/-- Claim C5 counterexample: a success (both calls 200) for a profile
payload lacking the `followers` key carries `followers = null` in the
response body, because line 56 of `app.py` reads the key without a
default — the claim "never null" fails. -/
theorem success_followers_can_be_none :
    success_followers ((get_profile_body "alice" sparseUpstream).1).body = some none := by
  decide

/-- Claim C5 as amended: in every success response the `followers` and
`public_repos` fields are copied verbatim from the profile payload —
integers exactly when the keys are present, `null` when absent. -/
theorem success_fields_verbatim (username : String) (pr : ProfileResponse)
    (rr : ReposResponse) (sb : SuccessBody)
    (h : ((get_profile_body username ⟨ReqResult.ok pr, ReqResult.ok rr⟩).1).body =
      Body.success sb) :
    sb.followers = pr.json.followers ∧ sb.public_repos = pr.json.public_repos := by
  rw [get_profile_body_ok_ok] at h
  by_cases hb : pr.status_code = 200 ∧ rr.status_code = 200
  · rw [if_pos hb] at h
    dsimp only at h
    injection h with h2
    rw [← h2]
    exact ⟨rfl, rfl⟩
  · rw [if_neg hb] at h
    by_cases h403 : pr.status_code = 403
    · rw [if_pos h403] at h
      exact Body.noConfusion h
    · rw [if_neg h403] at h
      exact Body.noConfusion h

/-- Witness for the amended C5: a success response for `plainProfile`
carries that payload's `followers` and `public_repos` values. -/
theorem success_fields_verbatim_witness :
    (⟨some "bob", some "Bob", some 1, some 1, 0, 0,
        calculate_gitworth plainProfile []⟩ : SuccessBody).followers =
      plainProfile.followers ∧
    (⟨some "bob", some "Bob", some 1, some 1, 0, 0,
        calculate_gitworth plainProfile []⟩ : SuccessBody).public_repos =
      plainProfile.public_repos :=
  success_fields_verbatim "bob" ⟨200, plainProfile⟩ ⟨200, []⟩ _ rfl

/-- Claim C6: a transport-level failure of either outbound call (the
profile GET raising, or the profile GET succeeding and the repositories GET
raising) produces the error body holding the failure's description, with
status 500. -/
theorem transport_failure_500 (username : String) (e : String) (up : Upstream)
    (h : up.profile = ReqResult.exn e ∨
      (∃ pr, up.profile = ReqResult.ok pr ∧ up.repos = ReqResult.exn e)) :
    (get_profile_body username up).1 = ⟨Body.error e, 500⟩ := by
  obtain ⟨p, r⟩ := up
  rcases h with h | ⟨pr, h1, h2⟩
  · change p = ReqResult.exn e at h
    subst h
    rfl
  · change p = ReqResult.ok pr at h1
    change r = ReqResult.exn e at h2
    subst h1
    subst h2
    rfl

/-- Witness for C6: a connection error on the profile call yields the 500
response carrying its description. -/
theorem transport_failure_500_witness :
    (get_profile_body "bob"
        ⟨ReqResult.exn "Connection refused", ReqResult.ok ⟨200, []⟩⟩).1 =
      ⟨Body.error "Connection refused", 500⟩ :=
  transport_failure_500 "bob" "Connection refused" _ (Or.inl rfl)

/-- Claim C10: with both upstream responses in hand, the handler produces
the success body exactly when both statuses are 200; any other combination
not covered by the profile-403 branch (success statuses like 201 or 204
included) produces the 404 "User not found" response. -/
theorem success_iff_both_200 (username : String) (pr : ProfileResponse)
    (rr : ReposResponse) :
    ((∃ sb, ((get_profile_body username ⟨ReqResult.ok pr, ReqResult.ok rr⟩).1).body =
        Body.success sb) ↔ (pr.status_code = 200 ∧ rr.status_code = 200)) ∧
      (¬(pr.status_code = 200 ∧ rr.status_code = 200) → pr.status_code ≠ 403 →
        (get_profile_body username ⟨ReqResult.ok pr, ReqResult.ok rr⟩).1 =
          ⟨Body.error "User not found", 404⟩) := by
  rw [get_profile_body_ok_ok]
  by_cases hb : pr.status_code = 200 ∧ rr.status_code = 200
  · rw [if_pos hb]
    exact ⟨⟨fun _ => hb, fun _ => ⟨_, rfl⟩⟩, fun hc => absurd hb hc⟩
  · rw [if_neg hb]
    by_cases h403 : pr.status_code = 403
    · rw [if_pos h403]
      refine ⟨⟨fun hex => ?_, fun hc => absurd hc hb⟩, fun _ hc => absurd h403 hc⟩
      obtain ⟨sb, hsb⟩ := hex
      exact Body.noConfusion hsb
    · rw [if_neg h403]
      refine ⟨⟨fun hex => ?_, fun hc => absurd hc hb⟩, fun _ _ => rfl⟩
      obtain ⟨sb, hsb⟩ := hex
      exact Body.noConfusion hsb

/-- Witness for C10: profile status 201 (a success status that is not 200)
with repositories 200 yields the 404 error response. -/
theorem success_iff_both_200_witness :
    (get_profile_body "bob" ⟨ReqResult.ok ⟨201, plainProfile⟩, ReqResult.ok ⟨200, []⟩⟩).1 =
      ⟨Body.error "User not found", 404⟩ :=
  (success_iff_both_200 "bob" ⟨201, plainProfile⟩ ⟨200, []⟩).2 (by decide) (by decide)

/-- Claim C1 (refuted by the code): `@cache.memoize(300)` sits above
`@app.route(...)`, so the route decorator runs first and registers the
un-memoized body in the URL map; the memoized wrapper is bound to the
module name only and is never dispatched.  Concretely: after a request for
"alice" at t = 0, a second request for "alice" at t = 10 — well inside the
300-second TTL — still issues both upstream GET calls. -/
theorem memoize_above_route_defeats_cache :
    gitworth_app.view = get_profile_body ∧
      (dispatch 10 (dispatch 0 emptyCache "alice" aliceUpstream).2.1 "alice"
          aliceUpstream).2.2 =
        [UpstreamCall.profileGet "alice", UpstreamCall.reposGet "alice"] := by
  exact ⟨rfl, by decide⟩

/-- Contrast for C1: with the decorators in the intended order (URL map
holding the memoized wrapper), a second request within the TTL is served
from the cache: identical payload and no upstream calls. -/
lemma memoized_view_serves_second_from_cache (u : String) (up : Upstream)
    (t1 t2 : ℕ) (h : t2 < t1 + 300) :
    (memoize 300 get_profile_body t2
        (memoize 300 get_profile_body t1 emptyCache u up).2.1 u up).1 =
      (memoize 300 get_profile_body t1 emptyCache u up).1 ∧
    (memoize 300 get_profile_body t2
        (memoize 300 get_profile_body t1 emptyCache u up).2.1 u up).2.2 = [] := by
  simp [memoize, emptyCache, h]

end Gitworth
